import Mathlib

/-!
Verification development for the remote-execution substrate:
a shallow embedding of `src/environment/bash_session.py`,
`src/environment/grading.py` and `src/server/spec.py`, with theorems
settling the frozen behavioural claims about them.

Python strings are modelled as Lean `String` (sequences of code points),
machine reals of the grade computation as `ℚ` (exact arithmetic),
dictionaries as association lists with `Nodup` keys, and the interaction
with the external process (buffer snapshots at each poll tick, temporary
file creation) as explicit environment parameters.
-/

/- ---------------------------------------------------------------- -/
/- String helpers mirroring the Python primitives used by the code. -/
/- ---------------------------------------------------------------- -/

/-- Index of the first occurrence of `needle` in a character list
(Python `str.index` / the successful side of `in`). -/
def subFind (needle : List Char) : List Char → Option Nat
  | [] => if List.isPrefixOf needle ([] : List Char) then some 0 else none
  | c :: t =>
    if List.isPrefixOf needle (c :: t) then some 0
    else Option.map (fun i => i + 1) (subFind needle t)

/-- First index of `needle` in `hay` (Python `hay.index(needle)`). -/
def strIndexOf (hay needle : String) : Option Nat :=
  subFind needle.data hay.data

/-- Python `needle in hay`. -/
def strContains (hay needle : String) : Bool :=
  (strIndexOf hay needle).isSome

/-- Python `s[:n]`. -/
def strTake (s : String) (n : Nat) : String :=
  ⟨s.data.take n⟩

/-- Python `hay[: hay.index(needle)]` — content strictly before the first
occurrence of `needle`; the whole string when `needle` does not occur. -/
def takeBeforeFirst (hay needle : String) : String :=
  match strIndexOf hay needle with
  | some i => strTake hay i
  | none => hay

/-- Python `s[:-1] if s.endswith(chr(10)) else s`: strip one trailing
newline. -/
def stripTrailingNewline (s : String) : String :=
  if s.data.getLast? = some (Char.ofNat 10) then ⟨s.data.dropLast⟩ else s

/-- Length in code points (Python `len` on `str`). -/
def strLen (s : String) : Nat := s.data.length

/- ---------------------------------------------------------------- -/
/- bash_session.py : the `_BashSession` class.                      -/
/- ---------------------------------------------------------------- -/

/-- Observable state of the spawned bash process: return code (set once the
process has exited), the two growable output pipe buffers, the log of
everything written to its stdin, and whether `terminate` was signalled. -/
structure ProcState where
  returncode : Option Int
  stdoutBuf : String
  stderrBuf : String
  stdinWrites : List String
  terminated : Bool
deriving Repr, DecidableEq

/-- A fresh process as spawned by `start`. -/
def freshProc : ProcState :=
  { returncode := none, stdoutBuf := "", stderrBuf := "", stdinWrites := [], terminated := false }

/-- Class attribute `_BashSession._sentinel`: a fixed literal shared by all
instances (the source assigns it once at class level and never per
instance). -/
def sentinelLiteral : String := "<<exit>>"

/-- Class attribute `_BashSession._timeout` is `30.0`; Python renders it as
this string inside f-string error messages. -/
def timeoutRepr : String := "30.0"

/-- `_BashSession.__init__` sets `_started` and `_timed_out`; `_process`
exists only after `start` (modelled with `Option`). -/
structure _BashSession where
  _started : Bool
  _timed_out : Bool
  _process : Option ProcState
deriving Repr, DecidableEq

/-- Instance attribute lookup `self._sentinel` resolves to the class
constant for every instance. -/
def _BashSession.sentinel (_s : _BashSession) : String := sentinelLiteral

/-- `_BashSession.__init__`. -/
def _BashSession.init : _BashSession :=
  { _started := false, _timed_out := false, _process := none }

/-- `_BashSession.start`: idempotent; spawns the process on first call. -/
def _BashSession.start (s : _BashSession) : _BashSession :=
  if s._started then s
  else { s with _started := true, _process := some freshProc }

/-- Outcome of a session operation: `cli` is a `CLIResult`, `result` a
`ToolResult` with its optional `system` and `error` fields, `toolError` a
raised `ToolError`, and `pyError` any other raised Python exception
(identified by its class name). -/
inductive ToolOutcome where
  | cli (output error : String)
  | result (system : Option String) (error : Option String)
  | toolError (msg : String)
  | pyError (kind : String)
deriving Repr, DecidableEq

/-- Result of `_BashSession.stop`. -/
inductive StopResult where
  | ok (s : _BashSession)
  | toolError (msg : String)
deriving Repr, DecidableEq

/-- `_BashSession.stop`: usage error if never started; no-op if the process
already exited; otherwise sends a termination signal. -/
def _BashSession.stop (s : _BashSession) : StopResult :=
  if ¬ s._started then .toolError "Session has not started."
  else
    match s._process with
    | none => .toolError "Session has not started."
    | some p =>
      if p.returncode.isSome then .ok s
      else .ok { s with _process := some { p with terminated := true } }

/-- Whether the temporary-file writes for the two overflow logs succeed, and
at which paths (`tempfile.NamedTemporaryFile`). `none` means the write
raises. -/
structure TempfileEnv where
  stdout_file : Option String
  stderr_file : Option String
deriving Repr, DecidableEq

/-- The two exception classes that can be raised inside the timeout
handler's inner `try` block. -/
inductive PyExn where
  | toolError (msg : String)
  | osError
deriving Repr, DecidableEq

/-- `isinstance(e, Exception)`: both `ToolError` and `OSError` derive from
`Exception`, so the handler's `except Exception` clause catches either. -/
def isinstanceException : PyExn → Bool := fun _ => true

/-- Truncation of a buffered stream for the inline preview:
`output[:10000] + "<response clipped>" if len(output) > 10000 else output`. -/
def truncatePreview (s : String) : String :=
  if strLen s > 10000 then strTake s 10000 ++ "<response clipped>" else s

/-- The base timeout sentence (also the fail-fast message of a poisoned
session). -/
def timeoutBaseMsg : String :=
  "timed out: bash has not returned in " ++ timeoutRepr ++ " seconds and must be restarted."

/-- The rich timeout message built inside the inner `try`: embeds both
overflow-file paths and both truncated previews. -/
def longTimeoutMsg (stdout_file stderr_file stdout_truncated stderr_truncated : String) : String :=
  timeoutBaseMsg ++ "\n" ++
  "Full logs saved to:\n" ++
  "  STDOUT: " ++ stdout_file ++ "\n" ++
  "  STDERR: " ++ stderr_file ++ "\n" ++
  "Truncated output:\n" ++
  "  STDOUT: " ++ stdout_truncated ++ "\n" ++
  "  STDERR: " ++ stderr_truncated

/-- The degraded timeout message of the outer `except Exception` clause:
only the truncated previews, no storage locations. -/
def shortTimeoutMsg (stdout_truncated stderr_truncated : String) : String :=
  "timed out: bash has not returned in " ++ timeoutRepr ++
  " seconds and must be restarted. Full logs are saved to \n STDOUT: " ++
  stdout_truncated ++ "\n STDERR: " ++ stderr_truncated

/-- The inner `try` block of the timeout handler: write stdout then stderr
overflow files (either write may raise), then `raise ToolError(long message)`.
Its result is the exception that reaches the inner `except Exception`. -/
def timeoutInnerTry (output error : String) (env : TempfileEnv) : PyExn :=
  match env.stdout_file with
  | none => .osError
  | some so =>
    match env.stderr_file with
    | none => .osError
    | some se =>
      .toolError (longTimeoutMsg so se (truncatePreview output) (truncatePreview error))

/-- The timeout handler's `try`/`except Exception` pair: whatever exception
escapes the `try` block — including the deliberately raised rich `ToolError`,
since `ToolError` derives from `Exception` — is caught and replaced by the
degraded `ToolError`. -/
def timeoutHandler (output error : String) (env : TempfileEnv) : ToolOutcome :=
  let raised := timeoutInnerTry output error env
  if isinstanceException raised then
    .toolError (shortTimeoutMsg (truncatePreview output) (truncatePreview error))
  else
    match raised with
    | .toolError m => .toolError m
    | .osError => .pyError "OSError"

/-- How the poll loop of `run` ends: the sentinel was found in a stdout
snapshot (with stdout already cut before it), or the timeout elapsed with
the loop locals `output`/`error` holding the last completed read (`none`
when the timeout fired during the very first sleep, before any read). -/
inductive LoopExit where
  | found (output error : String)
  | timeout (locals? : Option (String × String))
deriving Repr, DecidableEq

/-- The poll loop: `obs` is the sequence of (stdout buffer, stderr buffer)
snapshots read at each completed poll tick before the timeout; exhausting it
means the timeout elapsed during the next sleep. -/
def pollLoop : List (String × String) → Option (String × String) → LoopExit
  | [], locals? => .timeout locals?
  | (o, e) :: rest, _ =>
    if strContains o sentinelLiteral then
      .found (takeBeforeFirst o sentinelLiteral) e
    else
      pollLoop rest (some (o, e))

/-- `_BashSession.run`: precondition checks (started, not exited, not
poisoned), the stdin write framing the command with the sentinel echo, the
poll loop, and the three exits — success (strip one trailing newline from
each stream, clear both buffers), timeout with bound loop locals (the
handler builds the timeout `ToolError` and the session is poisoned), and
timeout before the first read (the handler dereferences the unassigned
locals, raising `UnboundLocalError`; the session is poisoned first). -/
def _BashSession.run (s : _BashSession) (command : String)
    (obs : List (String × String)) (env : TempfileEnv) :
    ToolOutcome × _BashSession :=
  if ¬ s._started then (.toolError "Session has not started.", s)
  else
    match s._process with
    | none => (.pyError "AttributeError", s)
    | some p =>
      match p.returncode with
      | some rc =>
        (.result (some "tool must be restarted")
          (some ("bash has exited with returncode " ++ toString rc)), s)
      | none =>
        if s._timed_out then (.toolError timeoutBaseMsg, s)
        else
          let p1 := { p with stdinWrites :=
            p.stdinWrites ++ [command ++ "; echo \x27" ++ sentinelLiteral ++ "\x27\n"] }
          match pollLoop obs none with
          | .found out err =>
            let output := stripTrailingNewline out
            let error := stripTrailingNewline err
            (.cli output error,
              { s with _process := some { p1 with stdoutBuf := "", stderrBuf := "" } })
          | .timeout none =>
            (.pyError "UnboundLocalError",
              { s with _timed_out := true, _process := some p1 })
          | .timeout (some (o, e)) =>
            (timeoutHandler o e env,
              { s with
                _timed_out := true
                _process := some { p1 with stdoutBuf := o, stderrBuf := e } })

/- ---------------------------------------------------------------- -/
/- bash_session.py : the `BashSessionManager` class.                -/
/- ---------------------------------------------------------------- -/

/-- `BashSessionManager`: single-slot owner of at most one session. -/
structure BashSessionManager where
  _session : Option _BashSession
deriving Repr, DecidableEq

/-- `BashSessionManager.__init__`. -/
def BashSessionManager.init : BashSessionManager := ⟨none⟩

/-- `BashSessionManager.execute(command, restart)`. -/
def BashSessionManager.execute (m : BashSessionManager) (command : Option String)
    (restart : Bool) (obs : List (String × String)) (env : TempfileEnv) :
    ToolOutcome × BashSessionManager :=
  if restart then
    match m._session with
    | some s =>
      match s.stop with
      | .toolError msg => (.toolError msg, m)
      | .ok _ =>
        (.result (some "tool has been restarted.") none, ⟨some (_BashSession.init.start)⟩)
    | none =>
      (.result (some "tool has been restarted.") none, ⟨some (_BashSession.init.start)⟩)
  else
    match m._session with
    | none =>
      let fresh := _BashSession.init.start
      match command with
      | some c =>
        let r := fresh.run c obs env
        (r.1, ⟨some r.2⟩)
      | none => (.toolError "no command provided.", ⟨some fresh⟩)
    | some s =>
      match command with
      | some c =>
        let r := s.run c obs env
        (r.1, ⟨some r.2⟩)
      | none => (.toolError "no command provided.", m)

/- ---------------------------------------------------------------- -/
/- grading.py : GradingRunner report formatting and workflows.      -/
/- ---------------------------------------------------------------- -/

/-- The conditional failure block of the per-stage report f-string:
emitted only when `failure_message` is truthy (Python `if failure_message`
is false both for `None` and for the empty string). -/
def failurePart : Option String → String
  | none => ""
  | some msg =>
    if msg = "" then ""
    else "<failure type=\x27TestFailure\x27>\n" ++ msg ++ "\n</failure>"

/-- `GradingRunner._format_junit_xml`, transcribed segment by segment from
the f-string template (the `failures` count is the hard-coded literal 1 in
every report). -/
def _format_junit_xml (test_name : String) (failure_message : Option String)
    (stdout stderr : String) : String :=
  "<?xml version=\"1.0\" encoding=\"UTF-8\"?>\n<testsuites>\n  <testsuite name=\"" ++
  test_name ++
  "\" tests=\"1\" failures=\"1\" errors=\"0\" skipped=\"0\">\n    <testcase classname=\"" ++
  test_name ++
  "\" name=\"test" ++
  test_name ++
  "\" time=\"0.0\">\n      " ++
  failurePart failure_message ++
  "\n      <system-out>\n" ++
  stdout ++
  "\n</system-out>\n      <system-err>\n" ++
  stderr ++
  "\n</system-err>\n    </testcase>\n  </testsuite>\n</testsuites>"

/-- Outcome of one external `subprocess.run` invocation. -/
structure RunRes where
  returncode : Int
  stdout : String
  stderr : String
deriving Repr, DecidableEq

/-- Outcome of an external invocation run with a wall-clock limit:
either it exits, or `subprocess.TimeoutExpired` is raised. -/
inductive ExtCall where
  | exit (r : RunRes)
  | expired
deriving Repr, DecidableEq

/-- `GradingRunner.run_tests`: nonzero exit is a failed `Tests` stage,
zero exit a passed one; both reports come from `_format_junit_xml`. -/
def run_tests (result : RunRes) : Bool × String :=
  if result.returncode ≠ 0 then
    (false, _format_junit_xml "Tests" (some "Tests failed") result.stdout result.stderr)
  else
    (true, _format_junit_xml "Tests" none result.stdout result.stderr)

/-- Outcome of a grading workflow: either an uncaught exception propagates
(fatal), or the workflow returns `(success, junit)`. -/
inductive GradeOutcome where
  | fatal (reason : String)
  | result (success : Bool) (junit : String)
deriving Repr, DecidableEq

/-- The external world as seen by one `validate_patches` invocation: the
success of each checked subprocess step and the outcome of each build/test
run, in workflow order. -/
structure ValidateEnv where
  copyOk : Bool
  baselineBuild : ExtCall
  testPatchOk : Bool
  testsWithTestPatch : RunRes
  resetOk : Bool
  goldenPatchOk : Bool
  testPatchOk2 : Bool
  goldenBuild : ExtCall
  testsWithGolden : RunRes
deriving Repr, DecidableEq

/-- The fixed all-pass report returned when every validation step
succeeds. -/
def validationSuccessXml : String :=
  "<?xml version=\"1.0\" encoding=\"UTF-8\"?>\n<testsuites>\n  <testsuite name=\"PatchValidation\" tests=\"6\" failures=\"0\" errors=\"0\" skipped=\"0\">\n    <testcase classname=\"PatchValidation\" name=\"testBaselineCompiles\" time=\"0.0\"/>\n    <testcase classname=\"PatchValidation\" name=\"testTestPatchApplies\" time=\"0.0\"/>\n    <testcase classname=\"PatchValidation\" name=\"testTestPatchFailsTests\" time=\"0.0\"/>\n    <testcase classname=\"PatchValidation\" name=\"testGoldenPatchApplies\" time=\"0.0\"/>\n    <testcase classname=\"PatchValidation\" name=\"testGoldenPatchCompiles\" time=\"0.0\"/>\n    <testcase classname=\"PatchValidation\" name=\"testGoldenPatchPassesTests\" time=\"0.0\"/>\n  </testsuite>\n</testsuites>"

/-- `GradingRunner.validate_patches`, with an action log naming each
external step actually executed (in order). `check=True` steps raise
`CalledProcessError` on failure — fatal, uncaught; the two build steps may
also raise `TimeoutExpired`, equally uncaught. -/
def validate_patches (env : ValidateEnv) : GradeOutcome × List String :=
  let log0 := ["copyBaseline"]
  if ¬ env.copyOk then (.fatal "CalledProcessError: cp", log0)
  else
    let log1 := log0 ++ ["buildBaseline"]
    match env.baselineBuild with
    | .expired => (.fatal "TimeoutExpired: lake build", log1)
    | .exit b =>
      if b.returncode ≠ 0 then
        (.result false (_format_junit_xml "BaselineCompiles"
          (some "Baseline compilation failed") b.stdout b.stderr), log1)
      else
        let log2 := log1 ++ ["applyTestPatch"]
        if ¬ env.testPatchOk then (.fatal "CalledProcessError: git apply", log2)
        else
          let log3 := log2 ++ ["runTestsWithTestPatch"]
          let result := env.testsWithTestPatch
          if result.returncode = 0 then
            (.result false (_format_junit_xml "TestPatchFailsTests"
              (some "Test patch did not cause tests to fail") result.stdout result.stderr), log3)
          else
            let log4 := log3 ++ ["resetHard"]
            if ¬ env.resetOk then (.fatal "CalledProcessError: git reset", log4)
            else
              let log5 := log4 ++ ["applyGoldenPatch"]
              if ¬ env.goldenPatchOk then (.fatal "CalledProcessError: git apply", log5)
              else
                let log6 := log5 ++ ["applyTestPatchAgain"]
                if ¬ env.testPatchOk2 then (.fatal "CalledProcessError: git apply", log6)
                else
                  let log7 := log6 ++ ["buildGolden"]
                  match env.goldenBuild with
                  | .expired => (.fatal "TimeoutExpired: lake build", log7)
                  | .exit gb =>
                    if gb.returncode ≠ 0 then
                      (.result false (_format_junit_xml "GoldenPatchCompiles"
                        (some "Golden patch compilation failed") gb.stdout gb.stderr), log7)
                    else
                      let log8 := log7 ++ ["runTestsWithGolden"]
                      let final := env.testsWithGolden
                      if final.returncode ≠ 0 then
                        (.result false (_format_junit_xml "GoldenPatchPassesTests"
                          ("Golden patch did not fix tests (returncode=" ++
                            toString final.returncode ++ ")")
                          final.stdout final.stderr), log8)
                      else
                        (.result true validationSuccessXml, log8)

/- ---------------------------------------------------------------- -/
/- spec.py : the Grade dataclass and its score property.            -/
/- ---------------------------------------------------------------- -/

/-- A Python dict mapping names to numbers, as an association list (keys
are unique in a dict; theorems carry `Nodup` hypotheses on the key list). -/
abbrev ScoreDict := List (String × ℚ)

/-- `d.keys()`. -/
def dictKeys (d : ScoreDict) : List String := d.map Prod.fst

/-- `d.values()`. -/
def dictVals (d : ScoreDict) : List ℚ := d.map Prod.snd

/-- Python dict-view equality `a.keys() == b.keys()` is equality as sets. -/
def keysSetEq (a b : List String) : Bool :=
  a.all (fun k => b.contains k) && b.all (fun k => a.contains k)

/-- `sum(d.values())`. -/
def sumVals (d : ScoreDict) : ℚ := (dictVals d).sum

/-- `np.isclose(a, b)` with the numpy defaults `rtol=1e-5`, `atol=1e-8`:
true iff `|a - b| <= atol + rtol * |b|`. -/
def np_isclose (a b : ℚ) : Bool :=
  |a - b| ≤ 1 / 100000000 + (1 / 100000) * |b|

/-- Python `min(iterable)` (raises `ValueError` on an empty one, hence
`Option`). -/
def pyMin : List ℚ → Option ℚ
  | [] => none
  | x :: xs => some (xs.foldl min x)

/-- Python `max(iterable)`. -/
def pyMax : List ℚ → Option ℚ
  | [] => none
  | x :: xs => some (xs.foldl max x)

/-- `d[k]` for a key known to be present (0 as a formal default; theorems
only rely on it under key-set equality, where lookup always succeeds). -/
def dictLookup (d : ScoreDict) (k : String) : ℚ :=
  (Option.map Prod.snd (d.find? (fun kv => kv.1 = k))).getD 0

/-- `np.clip(x, lo, hi)`. -/
def np_clip (x lo hi : ℚ) : ℚ := max lo (min x hi)

/-- The `Grade` dataclass (the `metadata` field plays no role in the score
computation and is omitted). -/
structure Grade where
  subscores : ScoreDict
  weights : ScoreDict
deriving Repr, DecidableEq

/-- `Grade.score`: the four assertions in source order (key-set equality,
`np.isclose(sum(weights), 1)`, `min(subscores) >= 0`,
`max(subscores) <= 1`), then the weighted sum over the subscore keys,
clipped to `[0, 1]`. `none` models a raised exception. -/
def Grade.score (g : Grade) : Option ℚ :=
  if keysSetEq (dictKeys g.subscores) (dictKeys g.weights) = false then none
  else if np_isclose (sumVals g.weights) 1 = false then none
  else
    match pyMin (dictVals g.subscores), pyMax (dictVals g.subscores) with
    | some mn, some mx =>
      if mn < 0 then none
      else if 1 < mx then none
      else some (np_clip ((g.subscores.map (fun kv => kv.2 * dictLookup g.weights kv.1)).sum) 0 1)
    | _, _ => none

/-- A sequence of `run` calls against one session: each element supplies the
command and the buffer snapshots its poll loop observes; returns the list of
outcomes and the final session state. -/
def runSeq (env : TempfileEnv) : _BashSession → List (String × List (String × String)) →
    List ToolOutcome × _BashSession
  | s, [] => ([], s)
  | s, (c, obs) :: rest =>
    let r := s.run c obs env
    let rs := runSeq env r.2 rest
    (r.1 :: rs.1, rs.2)

/- ---------------------------------------------------------------- -/
/- Helper lemmas.                                                   -/
/- ---------------------------------------------------------------- -/

theorem str_append_assoc (a b c : String) : (a ++ b) ++ c = a ++ (b ++ c) := by
  cases a; cases b; cases c
  show String.mk _ = String.mk _
  simp [String.append, List.append_assoc]

theorem pollLoop_eq_found (o e : String) (post : List (String × String))
    (ho : strContains o sentinelLiteral = true) :
    ∀ (pre : List (String × String)) (locals? : Option (String × String)),
      (∀ x ∈ pre, strContains x.1 sentinelLiteral = false) →
      pollLoop (pre ++ (o, e) :: post) locals? =
        .found (takeBeforeFirst o sentinelLiteral) e := by
  intro pre
  induction pre with
  | nil =>
    intro locals? _
    simp [pollLoop, ho]
  | cons x xs ih =>
    intro locals? hall
    obtain ⟨xo, xe⟩ := x
    have hx : strContains xo sentinelLiteral = false := hall (xo, xe) (by simp)
    simpa [pollLoop, hx] using ih (some (xo, xe)) (fun y hy => hall y (List.mem_cons_of_mem _ hy))

theorem foldl_min_lt_iff (c : ℚ) :
    ∀ (xs : List ℚ) (x : ℚ), xs.foldl min x < c ↔ x < c ∨ ∃ v ∈ xs, v < c := by
  intro xs
  induction xs with
  | nil => intro x; simp
  | cons y ys ih =>
    intro x
    simp [List.foldl_cons, ih, min_lt_iff, or_assoc]

theorem lt_foldl_max_iff (c : ℚ) :
    ∀ (xs : List ℚ) (x : ℚ), c < xs.foldl max x ↔ c < x ∨ ∃ v ∈ xs, c < v := by
  intro xs
  induction xs with
  | nil => intro x; simp
  | cons y ys ih =>
    intro x
    simp [List.foldl_cons, ih, lt_max_iff, or_assoc]

theorem run_cli_buffers_empty (s : _BashSession) (cmd : String)
    (obs : List (String × String)) (env : TempfileEnv) (out err : String)
    (s' : _BashSession) (h : s.run cmd obs env = (.cli out err, s')) :
    ∃ p, s'._process = some p ∧ p.stdoutBuf = "" ∧ p.stderrBuf = "" := by
  unfold _BashSession.run at h
  split at h
  · simp at h
  · split at h
    · simp at h
    · rename_i p _
      split at h
      · simp at h
      · split at h
        · simp at h
        · split at h
          · rename_i hfound
            obtain ⟨-, h2⟩ := Prod.mk.injEq .. ▸ h
            exact ⟨_, by rw [← h2], rfl, rfl⟩
          · simp at h
          · rename_i o e hloop
            have hm : timeoutHandler o e env =
                .toolError (shortTimeoutMsg (truncatePreview o) (truncatePreview e)) := by
              simp [timeoutHandler, isinstanceException]
            rw [hm] at h
            simp at h

/- ---------------------------------------------------------------- -/
/- Claim theorems.                                                  -/
/- ---------------------------------------------------------------- -/

set_option maxRecDepth 8192 in
/-- C1 (code divergence): on every timeout the error raised carries only the
degraded message with the truncated previews — even when both overflow-file
writes succeed — because the rich `ToolError` embedding the storage
locations is raised inside the same `try` block whose `except Exception`
clause catches it (`ToolError` derives from `Exception`) and replaces it.
The concrete part runs `sleep 100` into a timeout with both temporary files
successfully written and shows the resulting message contains neither
overflow-file path, while the discarded rich message does. -/
theorem timeout_error_always_degraded :
    (∀ (output error : String) (env : TempfileEnv),
      timeoutHandler output error env =
        .toolError (shortTimeoutMsg (truncatePreview output) (truncatePreview error))) ∧
    ((_BashSession.init.start).run "sleep 100" [("", "")]
        ⟨some "/tmp/bash_stdout_a.log", some "/tmp/bash_stderr_a.log"⟩).1 =
      .toolError (shortTimeoutMsg "" "") ∧
    strContains (shortTimeoutMsg "" "") "/tmp/bash_stdout_a.log" = false ∧
    strContains (shortTimeoutMsg "" "") "/tmp/bash_stderr_a.log" = false ∧
    strContains (longTimeoutMsg "/tmp/bash_stdout_a.log" "/tmp/bash_stderr_a.log" "" "")
        "/tmp/bash_stdout_a.log" = true := by
  refine ⟨?_, by decide, by decide, by decide, by decide⟩
  intro output error env
  simp [timeoutHandler, isinstanceException]

/-- C2: a session poisoned by a timeout fails every later `run` immediately
with an error (a raised `ToolError`, or — when the process also exited — a
`ToolResult` carrying an error), performs no process I/O (the result is
independent of the observed buffers and of the temp-file environment, and
the session state is returned unchanged), and no session operation
(`start`, `run`, `stop`) ever clears the poisoned flag. -/
theorem run_after_timeout_fails_fast :
    ∀ (s : _BashSession) (p : ProcState) (cmd : String)
      (obs obs' : List (String × String)) (env env' : TempfileEnv),
      s._timed_out = true → s._started = true → s._process = some p →
      ((∃ msg, (s.run cmd obs env).1 = .toolError msg) ∨
        (∃ err, (s.run cmd obs env).1 =
          .result (some "tool must be restarted") (some err))) ∧
      (s.run cmd obs env).2 = s ∧
      s.run cmd obs env = s.run cmd obs' env' ∧
      (s.start)._timed_out = true ∧
      (∀ s'', s.stop = .ok s'' → s''._timed_out = true) := by
  intro s p cmd obs obs' env env' ht hs hp
  have hrun : ∀ (o : List (String × String)) (e : TempfileEnv),
      s.run cmd o e =
        (match p.returncode with
          | some rc => (.result (some "tool must be restarted")
              (some ("bash has exited with returncode " ++ toString rc)), s)
          | none => (.toolError timeoutBaseMsg, s)) := by
    intro o e
    unfold _BashSession.run
    rcases hrc : p.returncode with _ | rc <;> simp [hs, hp, ht, hrc]
  refine ⟨?_, ?_, ?_, ?_, ?_⟩
  · rcases hrc : p.returncode with _ | rc
    · exact Or.inl ⟨timeoutBaseMsg, by rw [hrun]; simp [hrc]⟩
    · exact Or.inr ⟨"bash has exited with returncode " ++ toString rc, by rw [hrun]; simp [hrc]⟩
  · rw [hrun]; rcases p.returncode with _ | rc <;> simp
  · rw [hrun, hrun]
  · simp [_BashSession.start, hs, ht]
  · intro s'' hstop
    cases hq : p.returncode.isSome with
    | true =>
      have heq : s.stop = .ok s := by simp [_BashSession.stop, hs, hp, hq]
      rw [heq] at hstop
      injection hstop with h
      subst h
      exact ht
    | false =>
      have heq : s.stop = .ok { s with _process := some { p with terminated := true } } := by
        simp [_BashSession.stop, hs, hp, hq]
      rw [heq] at hstop
      injection hstop with h
      subst h
      exact ht

/-- Witness for C2: a concrete poisoned session fails identically for two
different observation/storage environments and is returned unchanged. -/
theorem run_after_timeout_fails_fast_witness :
    ((⟨true, true, some freshProc⟩ : _BashSession).run "echo hi" [] ⟨none, none⟩ =
      (⟨true, true, some freshProc⟩ : _BashSession).run "echo hi" [("x", "y")]
        ⟨some "/tmp/a.log", some "/tmp/b.log"⟩) ∧
    ((⟨true, true, some freshProc⟩ : _BashSession).run "echo hi" [] ⟨none, none⟩).2 =
      ⟨true, true, some freshProc⟩ := by
  have h := run_after_timeout_fails_fast ⟨true, true, some freshProc⟩ freshProc "echo hi"
    [] [("x", "y")] ⟨none, none⟩ ⟨some "/tmp/a.log", some "/tmp/b.log"⟩ rfl rfl rfl
  exact ⟨h.2.2.1, h.2.1⟩

/-- C3: for a started, non-poisoned, non-exited session, when the sentinel
first appears in the accumulated stdout snapshot `o` (no earlier snapshot
contains it), `run` returns a `CLIResult` whose output is the stdout
content strictly before the first sentinel occurrence with one trailing
newline stripped, and whose error is the accumulated stderr with one
trailing newline stripped. -/
theorem run_success_splits_at_first_sentinel :
    ∀ (s : _BashSession) (p : ProcState) (cmd : String)
      (pre post : List (String × String)) (o e : String) (env : TempfileEnv),
      s._started = true → s._process = some p → p.returncode = none →
      s._timed_out = false →
      (∀ x ∈ pre, strContains x.1 sentinelLiteral = false) →
      strContains o sentinelLiteral = true →
      (s.run cmd (pre ++ (o, e) :: post) env).1 =
        .cli (stripTrailingNewline (takeBeforeFirst o sentinelLiteral))
          (stripTrailingNewline e) := by
  intro s p cmd pre post o e env hs hp hrc ht hpre ho
  have hloop := pollLoop_eq_found o e post ho pre none hpre
  unfold _BashSession.run
  simp [hs, hp, hrc, ht, hloop]

/-- Witness for C3: `run("echo hi")` against the snapshot the echoed
command produces returns `{output: "hi", error: ""}`. -/
theorem run_success_splits_at_first_sentinel_witness :
    ((_BashSession.init.start).run "echo hi" [("hi\n<<exit>>\n", "")] ⟨none, none⟩).1 =
      .cli "hi" "" := by
  have h := run_success_splits_at_first_sentinel (_BashSession.init.start) freshProc
    "echo hi" [] [] "hi\n<<exit>>\n" "" ⟨none, none⟩ rfl rfl rfl rfl (by simp) (by decide)
  exact h.trans (by decide)

/-- C5: `execute(restart=true)` returns exactly the fixed operational
result `{system: "tool has been restarted."}` and installs a fresh started
session, for every prior manager state (no session, or any started session
— running, exited or poisoned), regardless of the supplied command, which
is never run. -/
theorem execute_restart_returns_fixed_message :
    ∀ (m : BashSessionManager) (cmd : Option String)
      (obs : List (String × String)) (env : TempfileEnv),
      (∀ s, m._session = some s → s._started = true ∧ ∃ p, s._process = some p) →
      m.execute cmd true obs env =
        (.result (some "tool has been restarted.") none,
          ⟨some (_BashSession.init.start)⟩) := by
  intro m cmd obs env hinv
  unfold BashSessionManager.execute
  rcases hm : m._session with _ | s
  · simp
  · obtain ⟨hs, p, hp⟩ := hinv s hm
    have hstop : ∃ s'', s.stop = .ok s'' := by
      cases hq : p.returncode.isSome
      · refine ⟨{ s with _process := some { p with terminated := true } }, ?_⟩
        simp [_BashSession.stop, hs, hp, hq]
      · refine ⟨s, ?_⟩
        simp [_BashSession.stop, hs, hp, hq]
    obtain ⟨s'', hstop⟩ := hstop
    simp [hstop]

/-- Witness for C5: restarting over a poisoned session, with a command
supplied, still returns the fixed message and a fresh session. -/
theorem execute_restart_returns_fixed_message_witness :
    (⟨some ⟨true, true, some freshProc⟩⟩ : BashSessionManager).execute (some "ls") true
        [("x", "y")] ⟨none, none⟩ =
      (.result (some "tool has been restarted.") none,
        ⟨some (_BashSession.init.start)⟩) :=
  execute_restart_returns_fixed_message _ _ _ _
    (fun s hs => by injection hs with h; subst h; exact ⟨rfl, freshProc, rfl⟩)

/-- C8 (counterexample): the sessions before and after a restart do not use
distinct sentinel values — the new session installed by
`execute(restart=true)` reports exactly the same sentinel as the session it
replaced, since `_sentinel` is a class-level literal. -/
theorem restart_reuses_same_sentinel :
    ((⟨some (_BashSession.init.start)⟩ : BashSessionManager).execute none true []
        ⟨none, none⟩).2._session.map _BashSession.sentinel =
      some ((_BashSession.init.start).sentinel) := by decide

/-- C8 (amended): the sentinel is the fixed class-level literal
`<<exit>>`, shared by every session instance; it is never regenerated, per
session or per command. -/
theorem sentinel_is_fixed_literal : ∀ s : _BashSession, s.sentinel = "<<exit>>" :=
  fun _ => rfl

/-- C10: if the timeout elapses before the first poll iteration has read
the output buffers (no completed read, modelled by an empty observation
list), the timeout handler dereferences the still-unassigned locals and
`run` fails with `UnboundLocalError` — not with the timeout `ToolError` —
while still poisoning the session first. -/
theorem run_timeout_before_first_poll_unbound_local :
    ∀ (s : _BashSession) (p : ProcState) (cmd : String) (env : TempfileEnv),
      s._started = true → s._process = some p → p.returncode = none →
      s._timed_out = false →
      (s.run cmd [] env).1 = .pyError "UnboundLocalError" ∧
      (s.run cmd [] env).2._timed_out = true ∧
      ∀ msg, (s.run cmd [] env).1 ≠ .toolError msg := by
  intro s p cmd env hs hp hrc ht
  have hloop : pollLoop [] none = .timeout none := rfl
  unfold _BashSession.run
  refine ⟨?_, ?_, ?_⟩ <;> simp [hs, hp, hrc, ht, hloop]

/-- Witness for C10: a fresh started session timing out during the first
sleep raises `UnboundLocalError`. -/
theorem run_timeout_before_first_poll_unbound_local_witness :
    ((_BashSession.init.start).run "sleep 100" [] ⟨none, none⟩).1 =
      .pyError "UnboundLocalError" :=
  (run_timeout_before_first_poll_unbound_local (_BashSession.init.start) freshProc
    "sleep 100" ⟨none, none⟩ rfl rfl rfl rfl).1

/-- C4: every `run` call that returns a `CLIResult` leaves both output
buffers empty, and hence any non-empty sequence of `run` calls whose
outcomes are all `CLIResult`s ends (and, by the first part, passes through
every intermediate state) with empty buffers. -/
theorem run_success_clears_buffers :
    (∀ (s : _BashSession) (cmd : String) (obs : List (String × String))
        (env : TempfileEnv) (out err : String) (s' : _BashSession),
      s.run cmd obs env = (.cli out err, s') →
      ∃ p, s'._process = some p ∧ p.stdoutBuf = "" ∧ p.stderrBuf = "") ∧
    (∀ (env : TempfileEnv) (calls : List (String × List (String × String)))
        (s : _BashSession),
      calls ≠ [] →
      (∀ r ∈ (runSeq env s calls).1, ∃ o e, r = .cli o e) →
      ∃ p, (runSeq env s calls).2._process = some p ∧
        p.stdoutBuf = "" ∧ p.stderrBuf = "") := by
  constructor
  · exact run_cli_buffers_empty
  · intro env calls
    induction calls with
    | nil => intro s h; exact absurd rfl h
    | cons c rest ih =>
      intro s _ hall
      obtain ⟨cmd, obs⟩ := c
      by_cases hrest : rest = []
      · subst hrest
        obtain ⟨o, e, ho⟩ := hall ((s.run cmd obs env).1) (by simp [runSeq])
        have hfin : (runSeq env s [(cmd, obs)]).2 = (s.run cmd obs env).2 := by
          simp [runSeq]
        rw [hfin]
        have hpair : s.run cmd obs env = (.cli o e, (s.run cmd obs env).2) :=
          Prod.ext ho rfl
        exact run_cli_buffers_empty s cmd obs env o e _ hpair
      · have hstep : runSeq env s ((cmd, obs) :: rest) =
            ((s.run cmd obs env).1 :: (runSeq env (s.run cmd obs env).2 rest).1,
              (runSeq env (s.run cmd obs env).2 rest).2) := by
          simp [runSeq]
        rw [hstep]
        refine ih ((s.run cmd obs env).2) hrest (fun r hr => hall r ?_)
        rw [hstep]
        exact List.mem_cons_of_mem _ hr

/-- Witness for C4: one successful call and a two-call all-successful
sequence both end with empty buffers. -/
theorem run_success_clears_buffers_witness :
    (∃ p, ((_BashSession.init.start).run "echo hi" [("hi\n<<exit>>\n", "")]
        ⟨none, none⟩).2._process = some p ∧ p.stdoutBuf = "" ∧ p.stderrBuf = "") ∧
    (∃ p, (runSeq ⟨none, none⟩ (_BashSession.init.start)
        [("echo hi", [("hi\n<<exit>>\n", "")]),
         ("echo ho", [("ho\n<<exit>>\n", "")])]).2._process = some p ∧
      p.stdoutBuf = "" ∧ p.stderrBuf = "") := by
  constructor
  · exact run_success_clears_buffers.1 (_BashSession.init.start) "echo hi"
      [("hi\n<<exit>>\n", "")] ⟨none, none⟩ "hi" ""
      ((_BashSession.init.start).run "echo hi" [("hi\n<<exit>>\n", "")] ⟨none, none⟩).2
      (by decide)
  · refine run_success_clears_buffers.2 ⟨none, none⟩
      [("echo hi", [("hi\n<<exit>>\n", "")]), ("echo ho", [("ho\n<<exit>>\n", "")])]
      (_BashSession.init.start) (by simp) ?_
    intro r hr
    have hlist : (runSeq ⟨none, none⟩ (_BashSession.init.start)
        [("echo hi", [("hi\n<<exit>>\n", "")]),
         ("echo ho", [("ho\n<<exit>>\n", "")])]).1 =
        [.cli "hi" "", .cli "ho" ""] := by decide
    rw [hlist] at hr
    simp at hr
    rcases hr with rfl | rfl
    · exact ⟨"hi", "", rfl⟩
    · exact ⟨"ho", "", rfl⟩

/-- C9: every report the formatter produces declares `failures="1"` in its
testsuite attributes, whatever the stage outcome; for fixed name and
captured streams the reports for different `failure_message` values differ
only in the optional inner failure element; and the passing `Tests` stage
of the grading workflow (zero test exit code) returns overall success
`true` together with exactly such a formatter report (whose failure element
is absent). -/
theorem format_junit_reports_one_failure_always :
    ∀ (test_name : String) (failure_message : Option String) (stdout stderr : String),
      (∃ p q, _format_junit_xml test_name failure_message stdout stderr =
        p ++ "failures=\"1\"" ++ q) ∧
      (∃ p q, ∀ m, _format_junit_xml test_name m stdout stderr =
        p ++ failurePart m ++ q) ∧
      (run_tests ⟨0, stdout, stderr⟩ =
        (true, _format_junit_xml "Tests" none stdout stderr)) ∧
      failurePart none = "" := by
  intro n m o e
  refine ⟨⟨"<?xml version=\"1.0\" encoding=\"UTF-8\"?>\n<testsuites>\n  <testsuite name=\"" ++
      n ++ "\" tests=\"1\" ",
    " errors=\"0\" skipped=\"0\">\n    <testcase classname=\"" ++ n ++ "\" name=\"test" ++
      n ++ "\" time=\"0.0\">\n      " ++ failurePart m ++ "\n      <system-out>\n" ++ o ++
      "\n</system-out>\n      <system-err>\n" ++ e ++
      "\n</system-err>\n    </testcase>\n  </testsuite>\n</testsuites>", ?_⟩,
    ⟨"<?xml version=\"1.0\" encoding=\"UTF-8\"?>\n<testsuites>\n  <testsuite name=\"" ++
      n ++ "\" tests=\"1\" failures=\"1\" errors=\"0\" skipped=\"0\">\n    <testcase classname=\"" ++
      n ++ "\" name=\"test" ++ n ++ "\" time=\"0.0\">\n      ",
    "\n      <system-out>\n" ++ o ++ "\n</system-out>\n      <system-err>\n" ++ e ++
      "\n</system-err>\n    </testcase>\n  </testsuite>\n</testsuites>", ?_⟩, ?_, rfl⟩
  · have hs2 : ("\" tests=\"1\" failures=\"1\" errors=\"0\" skipped=\"0\">\n    <testcase classname=\"" : String) =
        "\" tests=\"1\" " ++ "failures=\"1\"" ++
          " errors=\"0\" skipped=\"0\">\n    <testcase classname=\"" := by decide
    unfold _format_junit_xml
    rw [hs2]
    simp only [str_append_assoc]
  · intro m'
    unfold _format_junit_xml
    simp only [str_append_assoc]
  · simp [run_tests]

set_option maxRecDepth 8192 in
/-- C6 (counterexample): `Grade.score` does not reject every weight vector
whose sum differs from 1 — the source checks `np.isclose(sum, 1)`, so a
weight sum of `1 + 10⁻⁶` (within the `atol + rtol` tolerance) is accepted
and a score is returned, where the claim demands rejection. -/
theorem score_accepts_near_one_weight_sum :
    sumVals ([("a", 1 + 1 / 1000000)] : ScoreDict) ≠ 1 ∧
    (Grade.mk [("a", 1)] [("a", 1 + 1 / 1000000)]).score = some 1 := by
  constructor
  · norm_num [sumVals, dictVals]
  · norm_num [Grade.score, keysSetEq, dictKeys, dictVals, sumVals, np_isclose, pyMin, pyMax,
      dictLookup, np_clip, List.contains, List.find?,
      abs_of_nonneg (show (0 : ℚ) ≤ 1 / 1000000 by norm_num)]

/-- C6 (amended): `Grade.score` rejects exactly when the subscore and
weight key sets differ, or the weight sum fails the `np.isclose` tolerance
test against 1 (`|sum − 1| ≤ 10⁻⁸ + 10⁻⁵·|1|`), or some subscore lies
outside `[0, 1]`; otherwise it returns
`clip(Σ subscore·weight, 0, 1)`. -/
theorem score_rejects_iff_isclose (g : Grade)
    (_hnd : (dictKeys g.subscores).Nodup) (_hnw : (dictKeys g.weights).Nodup) :
    (g.score = none ↔
      keysSetEq (dictKeys g.subscores) (dictKeys g.weights) = false ∨
      np_isclose (sumVals g.weights) 1 = false ∨
      ∃ v ∈ dictVals g.subscores, v < 0 ∨ 1 < v) ∧
    (∀ v, g.score = some v →
      v = np_clip ((g.subscores.map (fun kv => kv.2 * dictLookup g.weights kv.1)).sum) 0 1) := by
  constructor
  · cases hk : keysSetEq (dictKeys g.subscores) (dictKeys g.weights) with
    | false => simp [Grade.score, hk]
    | true =>
      cases hc : np_isclose (sumVals g.weights) 1 with
      | false => simp [Grade.score, hk, hc]
      | true =>
        rcases hv : dictVals g.subscores with _ | ⟨v, vs⟩
        · exfalso
          have hsub : g.subscores = [] := List.map_eq_nil_iff.mp hv
          have hkeys : dictKeys g.subscores = [] := by simp [dictKeys, hsub]
          have hwk : dictKeys g.weights = [] := by
            rcases hw : dictKeys g.weights with _ | ⟨k, ks⟩
            · rfl
            · exfalso
              rw [hkeys, hw] at hk
              simp [keysSetEq] at hk
          have hwempty : g.weights = [] := List.map_eq_nil_iff.mp hwk
          rw [hwempty] at hc
          simp [sumVals, dictVals, np_isclose, decide_eq_true_eq] at hc
          norm_num at hc
        · by_cases hmn : vs.foldl min v < 0
          · have hsc : g.score = none := by
              simp [Grade.score, hk, hc, hv, pyMin, pyMax, hmn]
            rw [hsc]
            simp only [true_iff]
            refine Or.inr (Or.inr ?_)
            rcases (foldl_min_lt_iff 0 vs v).mp hmn with h | ⟨w, hw, hw0⟩
            · exact ⟨v, by simp, Or.inl h⟩
            · exact ⟨w, List.mem_cons_of_mem _ hw, Or.inl hw0⟩
          · by_cases hmx : 1 < vs.foldl max v
            · have hsc : g.score = none := by
                simp [Grade.score, hk, hc, hv, pyMin, pyMax, hmn, hmx]
              rw [hsc]
              simp only [true_iff]
              refine Or.inr (Or.inr ?_)
              rcases (lt_foldl_max_iff 1 vs v).mp hmx with h | ⟨w, hw, hw1⟩
              · exact ⟨v, by simp, Or.inr h⟩
              · exact ⟨w, List.mem_cons_of_mem _ hw, Or.inr hw1⟩
            · have hsc : g.score = some (np_clip
                  ((g.subscores.map (fun kv => kv.2 * dictLookup g.weights kv.1)).sum) 0 1) := by
                simp [Grade.score, hk, hc, hv, pyMin, pyMax, hmn, hmx]
              rw [hsc]
              refine iff_of_false (by simp) ?_
              rintro (h | h | ⟨w, hw, hcase⟩)
              · simp at h
              · simp at h
              · rcases List.mem_cons.mp hw with rfl | hw'
                · rcases hcase with h0 | h1
                  · exact hmn ((foldl_min_lt_iff 0 vs w).mpr (Or.inl h0))
                  · exact hmx ((lt_foldl_max_iff 1 vs w).mpr (Or.inl h1))
                · rcases hcase with h0 | h1
                  · exact hmn ((foldl_min_lt_iff 0 vs v).mpr (Or.inr ⟨w, hw', h0⟩))
                  · exact hmx ((lt_foldl_max_iff 1 vs v).mpr (Or.inr ⟨w, hw', h1⟩))
  · intro v0 hsv
    unfold Grade.score at hsv
    split at hsv
    · simp at hsv
    · split at hsv
      · simp at hsv
      · split at hsv
        · split at hsv
          · simp at hsv
          · split at hsv
            · simp at hsv
            · simp only [Option.some.injEq] at hsv
              exact hsv.symm
        · simp at hsv

set_option maxRecDepth 8192 in
/-- Witness for C6 (amended): a valid one-entry grade evaluates to a score
and matches the clipped weighted sum. -/
theorem score_rejects_iff_isclose_witness :
    (Grade.mk [("a", 1 / 2)] [("a", 1)]).score = some (1 / 2) ∧
    ((1 : ℚ) / 2) = np_clip ((([("a", (1 : ℚ) / 2)] : ScoreDict).map
      (fun kv => kv.2 * dictLookup ([("a", (1 : ℚ))] : ScoreDict) kv.1)).sum) 0 1 := by
  have hsc : (Grade.mk [("a", (1 : ℚ) / 2)] [("a", 1)]).score = some (1 / 2) := by
    norm_num [Grade.score, keysSetEq, dictKeys, dictVals, sumVals, np_isclose, pyMin, pyMax,
      dictLookup, np_clip, List.contains, List.find?]
  have h := score_rejects_iff_isclose (Grade.mk [("a", 1 / 2)] [("a", 1)])
    (by decide) (by decide)
  exact ⟨hsc, h.2 (1 / 2) hsc⟩

/-- C7: in `validate_patches`, once the workspace copy, baseline build
(zero exit) and test-patch application have succeeded, a zero exit code
from the subsequent test run makes the workflow return failure with the
`TestPatchFailsTests` report ("Test patch did not cause tests to fail")
and the golden patch is never applied; a nonzero exit code makes the
workflow continue past this stage (the next step, the hard reset, is
executed). -/
theorem validate_patches_zero_exit_gate :
    ∀ (env : ValidateEnv) (b : RunRes),
      env.copyOk = true → env.baselineBuild = .exit b → b.returncode = 0 →
      env.testPatchOk = true →
      (env.testsWithTestPatch.returncode = 0 →
        (validate_patches env).1 = .result false (_format_junit_xml "TestPatchFailsTests"
          (some "Test patch did not cause tests to fail")
          env.testsWithTestPatch.stdout env.testsWithTestPatch.stderr) ∧
        "applyGoldenPatch" ∉ (validate_patches env).2) ∧
      (env.testsWithTestPatch.returncode ≠ 0 →
        "resetHard" ∈ (validate_patches env).2) := by
  intro env b hcopy hbb hb0 htp
  constructor
  · intro h0
    have heval : validate_patches env =
        (.result false (_format_junit_xml "TestPatchFailsTests"
          (some "Test patch did not cause tests to fail")
          env.testsWithTestPatch.stdout env.testsWithTestPatch.stderr),
         ["copyBaseline", "buildBaseline", "applyTestPatch", "runTestsWithTestPatch"]) := by
      unfold validate_patches
      simp [hcopy, hbb, hb0, htp, h0]
    rw [heval]
    refine ⟨rfl, ?_⟩
    show "applyGoldenPatch" ∉
      ["copyBaseline", "buildBaseline", "applyTestPatch", "runTestsWithTestPatch"]
    decide
  · intro hne
    obtain ⟨c1, bb, t1, rt, r1, g1, t2, gb2, rg⟩ := env
    simp only at hcopy htp hbb hne ⊢
    subst hcopy
    subst htp
    subst hbb
    obtain ⟨bc, bo, be⟩ := b
    simp only at hb0
    subst hb0
    cases r1 <;> cases g1 <;> cases t2 <;>
      rcases gb2 with ⟨⟨gc, go, ge⟩⟩ | _ <;>
      simp [validate_patches, hne] <;>
      by_cases hgc : gc = 0 <;>
      by_cases hrg : rg.returncode = 0 <;>
      simp [hgc, hrg]

/-- Witness for C7: a run where the test patch leaves tests passing (exit
code 0) fails at `TestPatchFailsTests` with no golden-patch application. -/
theorem validate_patches_zero_exit_gate_witness :
    (validate_patches ⟨true, .exit ⟨0, "bo", "be"⟩, true, ⟨0, "to", "te"⟩, true, true, true,
        .exit ⟨0, "go", "ge"⟩, ⟨0, "fo", "fe"⟩⟩).1 =
      .result false (_format_junit_xml "TestPatchFailsTests"
        (some "Test patch did not cause tests to fail") "to" "te") ∧
    "applyGoldenPatch" ∉ (validate_patches ⟨true, .exit ⟨0, "bo", "be"⟩, true, ⟨0, "to", "te"⟩,
        true, true, true, .exit ⟨0, "go", "ge"⟩, ⟨0, "fo", "fe"⟩⟩).2 :=
  (validate_patches_zero_exit_gate
    ⟨true, .exit ⟨0, "bo", "be"⟩, true, ⟨0, "to", "te"⟩, true, true, true,
      .exit ⟨0, "go", "ge"⟩, ⟨0, "fo", "fe"⟩⟩
    ⟨0, "bo", "be"⟩ rfl rfl rfl rfl).1 rfl
